import Mathlib

/-!
# Speech proxy (`server.js`): a shallow embedding of the `POST /api/tts` handler

The handler of `server.js` (lines 30-83) is embedded as a pure function of
everything it reads from the outside world:

* the environment (`process.env.ELEVEN_API_KEY`, `process.env.ELEVEN_VOICE_ID`),
* the answer of `ttsLimiter.consume(req.ip)`,
* the answer of `fetch` to the outbound request,
* the request (`req.ip`, `req.body`).

What it does to the outside world is collected in an `Exchange`: the final state
of the response object `res`, the list of outbound `fetch` calls, and whether the
handler completed normally or let an exception escape.

JavaScript values are the values `express.json()` can put in `req.body`
(the results of `JSON.parse`) plus `undefined`.  Numbers are IEEE-754 binary64
values given by their bit fields, so that the values `JSON.parse` gives for
out-of-range literals (`1e999` is `Infinity`) are present; the handler never
computes with them, it copies them and hands them to `JSON.stringify`.  Strings
are sequences of Unicode characters.

The limiter behind `ttsLimiter` comes from a package outside the source tree; it
is modelled separately (section "The rate limiter") and the handler only sees its
answer.
-/

set_option autoImplicit false
set_option maxRecDepth 100000

namespace TtsProxy

/-! ## JavaScript values -/

/-- A JavaScript number: an IEEE-754 binary64 value, given by its sign bit, its
11-bit biased exponent and its 52-bit fraction. -/
structure JsNum where
  sign : Bool
  exponent : Fin 2048
  fraction : Fin 4503599627370496

namespace JsNum

/-- The number is neither an infinity nor `NaN`: its exponent field is not all
ones. -/
def isFinite (n : JsNum) : Bool :=
  n.exponent.val != 2047

/-- The number is `+0` or `-0`. -/
def isZero (n : JsNum) : Bool :=
  n.exponent.val == 0 && n.fraction.val == 0

/-- The number is `NaN`. -/
def isNaN (n : JsNum) : Bool :=
  n.exponent.val == 2047 && n.fraction.val != 0

/-- The number is `-0`. -/
def isNegZero (n : JsNum) : Bool :=
  n.sign && n.isZero

/-- The number literal `0.55` of line 59 (bits `3FE199999999999A`). -/
def lit0_55 : JsNum := ⟨false, 1022, 450359962737050⟩

/-- The number literal `0.85` of line 60 (bits `3FEB333333333333`). -/
def lit0_85 : JsNum := ⟨false, 1022, 3152519739159347⟩

/-- The number literal `0.2` of line 61 (bits `3FC999999999999A`). -/
def lit0_2 : JsNum := ⟨false, 1020, 2702159776422298⟩

/-- The number `0.9` (bits `3FECCCCCCCCCCCCD`). -/
def lit0_9 : JsNum := ⟨false, 1022, 3602879701896397⟩

/-- The number `5` (bits `4014000000000000`). -/
def lit5 : JsNum := ⟨false, 1025, 1125899906842624⟩

/-- The number `Infinity` (bits `7FF0000000000000`), what `JSON.parse` gives for
the literal `1e999`. -/
def infinity : JsNum := ⟨false, 2047, 0⟩

/-- The number `-0` (bits `8000000000000000`). -/
def negZero : JsNum := ⟨true, 0, 0⟩

/-- The number `JSON.stringify` writes for a finite number: the number itself,
and `0` for `-0`. -/
def written (n : JsNum) : JsNum :=
  if n.isZero then ⟨false, n.exponent, n.fraction⟩ else n

end JsNum

/-- JSON values together with `undefined`. -/
inductive JsVal where
  | undefined
  | null
  | bool (b : Bool)
  | num (n : JsNum)
  | str (s : String)
  | arr (items : List JsVal)
  | obj (fields : List (String × JsVal))

namespace JsVal

/-- JavaScript `ToBoolean`: the operand of `!` and `||`. -/
def truthy : JsVal → Bool
  | undefined => false
  | null => false
  | bool b => b
  | num n => !(n.isZero || n.isNaN)
  | str s => s != ""
  | arr _ => true
  | obj _ => true

/-- The test `typeof v === "string"`. -/
def isString : JsVal → Bool
  | str _ => true
  | _ => false

/-- The test `v === undefined || v === null` (the left operand test of `??` and `?.`). -/
def isNullish : JsVal → Bool
  | undefined => true
  | null => true
  | _ => false

/-- Property read `v.key` for the keys the handler reads (`text`, `model`,
`voice_settings`, `stability`, `similarity_boost`, `style`): an own field of an
object, and `undefined` on every other value (no prototype defines these keys). -/
def getProp (v : JsVal) (key : String) : JsVal :=
  match v with
  | obj fields =>
    match fields.lookup key with
    | some x => x
    | none => undefined
  | _ => undefined

/-- Optional chaining `v?.key`. -/
def optChain (v : JsVal) (key : String) : JsVal :=
  if v.isNullish then undefined else v.getProp key

/-- Nullish coalescing `v ?? d`. -/
def orElse (v d : JsVal) : JsVal :=
  if v.isNullish then d else v

/-- Destructuring default `{ key = d } = v`: the default is taken only when the
property read gives `undefined`. -/
def getPropDefault (v : JsVal) (key : String) (d : JsVal) : JsVal :=
  match v.getProp key with
  | undefined => d
  | x => x

end JsVal

mutual

/-- The document `JSON.stringify(v)` writes, given as the value it denotes: a
non-finite number is written `null` and `-0` is written `0`; a member of a record
whose value is `undefined` is left out and an item of an array that is `undefined`
is written `null`; `undefined` itself is not written (the result is `undefined`). -/
def jsonStringify : JsVal → JsVal
  | .undefined => .undefined
  | .null => .null
  | .bool b => .bool b
  | .num n => if n.isFinite then .num n.written else .null
  | .str s => .str s
  | .arr items => .arr (jsonItems items)
  | .obj fields => .obj (jsonFields fields)

/-- The items `JSON.stringify` writes for the items of an array. -/
def jsonItems : List JsVal → List JsVal
  | [] => []
  | v :: vs =>
    (match jsonStringify v with
      | .undefined => .null
      | x => x) :: jsonItems vs

/-- The members `JSON.stringify` writes for the members of a record. -/
def jsonFields : List (String × JsVal) → List (String × JsVal)
  | [] => []
  | (k, v) :: fs =>
    match jsonStringify v with
    | .undefined => jsonFields fs
    | x => (k, x) :: jsonFields fs

end

/-- ECMAScript `WhiteSpace` and `LineTerminator` code points, the characters
removed by `String.prototype.trim`. -/
def isJsWhiteSpace (c : Char) : Bool :=
  let n := c.toNat
  n == 0x09 || n == 0x0A || n == 0x0B || n == 0x0C || n == 0x0D || n == 0x20 ||
  n == 0xA0 || n == 0x1680 || (0x2000 ≤ n && n ≤ 0x200A) || n == 0x2028 ||
  n == 0x2029 || n == 0x202F || n == 0x205F || n == 0x3000 || n == 0xFEFF

/-- The method `String.prototype.trim` on the list of characters. -/
def trimChars (cs : List Char) : List Char :=
  ((cs.dropWhile isJsWhiteSpace).reverse.dropWhile isJsWhiteSpace).reverse

/-- The method `String.prototype.trim`. -/
def jsTrim (s : String) : String :=
  ⟨trimChars s.data⟩

/-! ## The outside world -/

/-- A thrown JavaScript value (an `Error` with its message). -/
structure JsError where
  message : String

/-- The two environment variables the handler reads; `none` is `undefined`. -/
structure Env where
  ELEVEN_API_KEY : Option String
  ELEVEN_VOICE_ID : Option String

/-- The test `!process.env.X`: the variable is unset or the empty string. -/
def envMissing : Option String → Bool
  | none => true
  | some s => s == ""

/-- The string a template literal or header gets from `process.env.X`. -/
def envText : Option String → String
  | none => "undefined"
  | some s => s

/-- The inbound request: `req.ip` and `req.body`. -/
structure Request where
  ip : String
  body : JsVal

/-- The argument of one `fetch` call.  The field `body` is the JSON document of
the request body, given as the value it denotes. -/
structure FetchRequest where
  url : String
  method : String
  headers : List (String × String)
  body : JsVal

/-- The body of a provider response as a Node stream: the chunks it delivers in
arrival order, and whether it then ends normally (`none`) or emits `error`. -/
structure UpstreamStream where
  chunks : List (List Nat)
  failure : Option JsError

/-- A provider response: its status, what `resp.text()` settles to, and what
`Readable.fromWeb(resp.body)` returns or throws. -/
structure FetchResponse where
  status : Nat
  text : Except JsError String
  fromWeb : Except JsError UpstreamStream

/-- The getter `Response.ok`: the status is in the range 200-299. -/
def FetchResponse.ok (r : FetchResponse) : Bool :=
  200 ≤ r.status && r.status ≤ 299

/-- What `await fetch(...)` does: it throws (network error) or gives a response. -/
inductive FetchResult where
  | rejects (e : JsError)
  | resolves (r : FetchResponse)

/-! ## The response object `res` -/

/-- The state of the Express response object. `jsonSent` lists the documents sent
with `res.json`, `written` the raw bytes written through the pipe. -/
structure Res where
  statusCode : Nat
  headers : List (String × String)
  jsonSent : List JsVal
  written : List Nat
  headersSent : Bool
  ended : Bool

namespace Res

/-- A fresh response: status 200, nothing sent. -/
def init : Res :=
  { statusCode := 200, headers := [], jsonSent := [], written := [],
    headersSent := false, ended := false }

/-- The call `res.status(code)`. -/
def status (r : Res) (code : Nat) : Res :=
  { r with statusCode := code }

/-- The header value `res.get(name)`. -/
def getHeader (r : Res) (name : String) : Option String :=
  r.headers.lookup name

/-- The call `res.setHeader(name, value)`: throws once the headers are sent. -/
def setHeader (r : Res) (name value : String) : Except JsError Res :=
  if r.headersSent then .error ⟨"ERR_HTTP_HEADERS_SENT"⟩
  else .ok { r with headers := (name, value) :: r.headers.filter (fun h => h.1 != name) }

/-- The call `res.json(doc)`: throws once the headers are sent; otherwise sets
`Content-Type: application/json` unless a content type is already set, sends the
document and ends the response. The `; charset=utf-8` suffix Express appends to
the content type is left out. -/
def json (r : Res) (doc : JsVal) : Except JsError Res :=
  if r.headersSent then .error ⟨"ERR_HTTP_HEADERS_SENT"⟩
  else
    let hs := match r.getHeader "Content-Type" with
      | some _ => r.headers
      | none => ("Content-Type", "application/json") :: r.headers
    .ok { r with headers := hs, jsonSent := r.jsonSent ++ [doc],
                 headersSent := true, ended := true }

/-- One chunk forwarded by the pipe (`res.write(chunk)`); ignored after the end. -/
def write (r : Res) (chunk : List Nat) : Res :=
  if r.ended then r
  else { r with written := r.written ++ chunk, headersSent := true }

/-- The call `res.end()`. -/
def endResponse (r : Res) : Res :=
  { r with headersSent := true, ended := true }

/-- The effect of `nodeStream.on("error", () => res.end()); nodeStream.pipe(res)`
over the life of the stream: every chunk is written in arrival order, then the
response is ended, by the pipe when the source ends and by the `error` listener
when it fails. -/
def pipeFrom (r : Res) (s : UpstreamStream) : Res :=
  (s.chunks.foldl write r).endResponse

end Res

/-! ## The handler of `POST /api/tts` -/

/-- How the handler's `async` function settles. -/
inductive Completion where
  | normal
  | throws (e : JsError)

/-- Everything one run of the handler does: the final state of `res`, the
outbound `fetch` calls in order, and how the run settled. -/
structure Exchange where
  res : Res
  fetches : List FetchRequest
  completion : Completion

/-- The statement `return res.status(code).json(doc)`. -/
def sendJson (res : Res) (fetches : List FetchRequest) (code : Nat) (doc : JsVal) : Exchange :=
  match (res.status code).json doc with
  | .ok r => ⟨r, fetches, .normal⟩
  | .error e => ⟨res.status code, fetches, .throws e⟩

/-- The value `req.body || {}` (line 38). -/
def bodyOrEmpty (body : JsVal) : JsVal :=
  if body.truthy then body else .obj []

/-- The operand `text.trim()` of line 42; `||` evaluates it on strings only. -/
def trimOf : JsVal → JsVal
  | .str s => .str (jsTrim s)
  | _ => .undefined

/-- The condition `!text || typeof text !== "string" || !text.trim()` (line 42). -/
def textRejected (text : JsVal) : Bool :=
  !text.truthy || !text.isString || !(trimOf text).truthy

/-- The template literal of line 46. -/
def ttsUrl (env : Env) : String :=
  "https://api.elevenlabs.io/v1/text-to-speech/" ++ envText env.ELEVEN_VOICE_ID ++
    "?optimize_streaming_latency=2&output_format=mp3_44100_128"

/-- The object literal of lines 58-63. -/
def voiceSettings (voice_settings : JsVal) : JsVal :=
  .obj [("stability", (voice_settings.optChain "stability").orElse (.num .lit0_55)),
        ("similarity_boost",
          (voice_settings.optChain "similarity_boost").orElse (.num .lit0_85)),
        ("style", (voice_settings.optChain "style").orElse (.num .lit0_2)),
        ("use_speaker_boost", .bool true)]

/-- The argument of `fetch` (lines 48-65); the body is the `JSON.stringify` of line
55 applied to the object literal of lines 55-64. -/
def ttsRequest (env : Env) (text model voice_settings : JsVal) : FetchRequest :=
  { url := ttsUrl env
    method := "POST"
    headers := [("xi-api-key", envText env.ELEVEN_API_KEY),
                ("Content-Type", "application/json"),
                ("Accept", "audio/mpeg")]
    body := jsonStringify (.obj [("text", text), ("model_id", model),
                                 ("voice_settings", voiceSettings voice_settings)]) }

/-- Lines 67-78: what the handler does with the settled `fetch` of `call`. -/
def afterFetch (res : Res) (call : FetchRequest) : FetchResult → Exchange
  | .rejects e => ⟨res, [call], .throws e⟩
  | .resolves resp =>
    if !resp.ok then
      let detail := match resp.text with
        | .ok d => d
        | .error _ => ""
      sendJson res [call] 502 (.obj [("error", .str "ElevenLabs error"), ("detail", .str detail)])
    else
      match res.setHeader "Content-Type" "audio/mpeg" with
      | .error e => ⟨res, [call], .throws e⟩
      | .ok r1 =>
        match r1.setHeader "Cache-Control" "no-store" with
        | .error e => ⟨r1, [call], .throws e⟩
        | .ok r2 =>
          match resp.fromWeb with
          | .error e => ⟨r2, [call], .throws e⟩
          | .ok nodeStream => ⟨r2.pipeFrom nodeStream, [call], .normal⟩

/-- The `try` block of the handler (lines 32-78), started on the response `res`.
`consume key` tells whether `ttsLimiter.consume(key)` resolves. -/
def tryBlock (env : Env) (consume : String → Bool) (fetch : FetchRequest → FetchResult)
    (req : Request) (res : Res) : Exchange :=
  if !consume req.ip then
    sendJson res [] 429 (.obj [("error", .str "Too many requests")])
  else
    let body := bodyOrEmpty req.body
    let text := body.getProp "text"
    let model := body.getPropDefault "model" (.str "eleven_multilingual_v2")
    let voice_settings := body.getProp "voice_settings"
    if envMissing env.ELEVEN_API_KEY || envMissing env.ELEVEN_VOICE_ID then
      sendJson res [] 500 (.obj [("error", .str "Server TTS sozlanmagan (API_KEY/VOICE_ID yo‘q).")])
    else if textRejected text then
      sendJson res [] 400 (.obj [("error", .str "Matn (text) talab qilinadi.")])
    else
      let call := ttsRequest env text model voice_settings
      afterFetch res call (fetch call)

/-- The `catch (e)` clause of lines 79-82, applied to the outcome of the `try`
block (`console.error` only logs). -/
def catchClause (x : Exchange) : Exchange :=
  match x.completion with
  | .normal => x
  | .throws _ => sendJson x.res x.fetches 500 (.obj [("error", .str "Server ichki xatosi")])

/-- The handler of `POST /api/tts` (lines 30-83) on a fresh response. -/
def handler (env : Env) (consume : String → Bool) (fetch : FetchRequest → FetchResult)
    (req : Request) : Exchange :=
  catchClause (tryBlock env consume fetch req Res.init)

/-! ## The rate limiter

`server.js` line 27 builds `ttsLimiter` with `new RateLimiterMemory({ points: 60,
duration: 60 })`.  The class comes from the package `rate-limiter-flexible`, which
is not part of the source tree, so the limiter is modelled from sections 3 and 4.1
of the specification: one counter per client key, holding a count and a
window-expiry timestamp, created on the first request of the key and reset when
its window has elapsed.  Timestamps are milliseconds. -/

/-- Modelled from the spec: the fixed policy of a limiter, at most `points`
admissions per window of `duration` seconds (the options object of
`RateLimiterMemory`, whose code is missing from the source tree). -/
structure Policy where
  points : Nat
  duration : Nat

/-- The limiter of line 27, `new RateLimiterMemory({ points: 60, duration: 60 })`:
its options. Its state is a `Table`, empty when the process starts. -/
def ttsLimiter : Policy := ⟨60, 60⟩

/-- Modelled from the spec: the rate-limit counter of one client key, "a count and
a window-expiry timestamp" (the record kept by the missing `RateLimiterMemory`). -/
structure Counter where
  count : Nat
  expiresAt : Nat

/-- Modelled from the spec: the in-memory state of the missing `RateLimiterMemory`,
the counter of each client key that has one. -/
def Table := String → Option Counter

/-- Modelled from the spec: the state of the missing `RateLimiterMemory` at process
start, no counter at all. -/
def Table.empty : Table := fun _ => none

/-- Modelled from the spec: storing the counter of one key in the table of the
missing `RateLimiterMemory`. -/
def Table.set (t : Table) (key : String) (c : Counter) : Table :=
  fun k => if k = key then some c else t k

/-- Modelled from the spec: the counter a request at time `now` asks for in the
missing `RateLimiterMemory`: one more point on a live counter; a new counter
with one point, expiring `duration` seconds later, when the key has no counter
("created on first request") or its window has elapsed ("reset when the window
elapses"). -/
def Counter.next (p : Policy) (now : Nat) : Option Counter → Counter
  | some c =>
    if now < c.expiresAt then ⟨c.count + 1, c.expiresAt⟩
    else ⟨1, now + p.duration * 1000⟩
  | none => ⟨1, now + p.duration * 1000⟩

/-- Modelled from the spec: the method `consume(key)` of the missing
`RateLimiterMemory` at time `now`. It "either succeeds (increments the counter) or
fails with a `RateLimitExceeded` signal when the key's count within the current
window would exceed N". The result is the new table and whether the call
succeeded. A failed call leaves the table as it is, as the invariant of section 3
(the count never exceeds the budget) asks; which calls succeed does not depend on
that choice. -/
def consume (p : Policy) (t : Table) (key : String) (now : Nat) : Table × Bool :=
  let c := Counter.next p now (t key)
  if c.count > p.points then (t, false) else (t.set key c, true)

/-- The requests of a list of timestamped requests `(key, time)` that the limiter
admits, in order, when the requests are consumed one after the other from the
table `t`. -/
def admissions (p : Policy) (t : Table) : List (String × Nat) → List (String × Nat)
  | [] => []
  | r :: rest =>
    if (consume p t r.1 r.2).2 then r :: admissions p (consume p t r.1 r.2).1 rest
    else admissions p (consume p t r.1 r.2).1 rest

/-- The table after a list of timestamped requests has been consumed. -/
def Table.after (p : Policy) (t : Table) : List (String × Nat) → Table
  | [] => t
  | r :: rest => Table.after p (consume p t r.1 r.2).1 rest

/-- One request served at time `now` with the limiter table `t`: line 33 asks the
limiter, and the handler runs on its answer. -/
def serve (env : Env) (fetch : FetchRequest → FetchResult) (t : Table) (now : Nat)
    (req : Request) : Table × Exchange :=
  ((consume ttsLimiter t req.ip now).1,
    handler env (fun key => (consume ttsLimiter t key now).2) fetch req)

/-! ## Vocabulary of the specification -/

/-- A server credential is absent: unset, or the empty string. -/
def Absent (v : Option String) : Prop :=
  v = none ∨ v = some ""

/-- The `text` of a request body is absent, not a string, empty, or made of
white space only. -/
def BlankText (v : JsVal) : Prop :=
  ∀ s, v = .str s → ∀ c ∈ s.data, isJsWhiteSpace c = true

/-- The `text` of a request body is a string with at least one character that is
not white space. -/
def GoodText (v : JsVal) : Prop :=
  ∃ s, v = .str s ∧ ∃ c ∈ s.data, isJsWhiteSpace c = false

/-- The request reaches the provider call: the limiter admits it, both
credentials are configured, and its `text` has content. -/
def Reaches (env : Env) (consume : String → Bool) (req : Request) : Prop :=
  consume req.ip = true ∧ ¬ Absent env.ELEVEN_API_KEY ∧ ¬ Absent env.ELEVEN_VOICE_ID ∧
    GoodText (req.body.getProp "text")

/-- The outbound request the handler builds for a request body. -/
def outbound (env : Env) (body : JsVal) : FetchRequest :=
  ttsRequest env (body.getProp "text")
    (body.getPropDefault "model" (.str "eleven_multilingual_v2"))
    (body.getProp "voice_settings")

/-- The value the caller supplied for a field of `voice_settings`, if any: the
field of the record when it is neither `undefined` nor `null`. -/
def supplied (voice_settings : JsVal) (key : String) : Option JsVal :=
  match voice_settings with
  | .obj fields =>
    match fields.lookup key with
    | some .undefined => none
    | some .null => none
    | some x => some x
    | none => none
  | _ => none

/-- The value is written by `JSON.stringify` as it is: `null`, a boolean, a string,
or a finite number other than `-0`. -/
def Verbatim : JsVal → Prop
  | .null => True
  | .bool _ => True
  | .str _ => True
  | .num n => n.isFinite = true ∧ n.isNegZero = false
  | _ => False

/-- A complete JSON reply: the given status, exactly one JSON document sent, no
raw bytes, the response ended, and the handler settled without throwing. -/
def JsonReply (x : Exchange) (code : Nat) (doc : JsVal) : Prop :=
  x.res.statusCode = code ∧ x.res.jsonSent = [doc] ∧ x.res.written = [] ∧
    x.res.ended = true ∧ x.completion = .normal

/-- The number of admitted requests of `key` whose time lies in the window of
`len` milliseconds that starts at `start`. -/
def admittedIn (key : String) (start len : Nat) (adm : List (String × Nat)) : Nat :=
  adm.countP (fun r => r.1 == key && decide (start ≤ r.2) && decide (r.2 < start + len))

/-- The requests arrive in the order of their timestamps. -/
def TimeOrdered (reqs : List (String × Nat)) : Prop :=
  reqs.Pairwise (fun a b => a.2 ≤ b.2)

/-- Whether a list of requests is in the order of its timestamps can be checked. -/
instance decidableTimeOrdered (reqs : List (String × Nat)) : Decidable (TimeOrdered reqs) :=
  inferInstanceAs (Decidable (List.Pairwise (fun (a b : String × Nat) => a.2 ≤ b.2) reqs))

/-- At time `now` the key has no live counter: the next request of the key creates
its counter or resets it. -/
def Fresh (t : Table) (key : String) (now : Nat) : Prop :=
  ∀ c, t key = some c → c.expiresAt ≤ now

/-- The counter of `key`, when there is one, holds between one point and the
budget. -/
def Within (p : Policy) (t : Table) (key : String) : Prop :=
  ∀ c, t key = some c → 1 ≤ c.count ∧ c.count ≤ p.points

/-- The points on a counter, counting an absent counter as one point. -/
def load : Option Counter → Nat
  | some c => c.count
  | none => 1

/-! ## Concrete inputs -/

/-- A configured environment. -/
def configured : Env := ⟨some "sk_test", some "voice42"⟩

/-- A limiter answer that lets every key through. -/
def allowAll : String → Bool := fun _ => true

/-- A limiter answer that rejects every key. -/
def rejectAll : String → Bool := fun _ => false

/-- A provider that is unreachable: `fetch` rejects with a network error. -/
def offline : FetchRequest → FetchResult :=
  fun _ => .rejects ⟨"fetch failed"⟩

/-- The request body `{text: "salom", voice_settings: {stability: 0.9}}`. -/
def stabilityBody : JsVal :=
  .obj [("text", .str "salom"), ("voice_settings", .obj [("stability", .num .lit0_9)])]

/-- The request body `{text: "salom", voice_settings: {stability: 1e999}}` after
`JSON.parse`: the stability is `Infinity`. -/
def infiniteStabilityBody : JsVal :=
  .obj [("text", .str "salom"), ("voice_settings", .obj [("stability", .num .infinity)])]

/-- The request body `{text: "salom", model: 5}`. -/
def numericModelBody : JsVal :=
  .obj [("text", .str "salom"), ("model", .num .lit5)]

/-- The request body whose `text` is a tab, a no-break space, a space and a line
feed. -/
def blankBody : JsVal :=
  .obj [("text", .str "\t\u00a0 \n")]

/-- A provider that answers 404 with the body text `voice not found`. -/
def voiceNotFound : FetchRequest → FetchResult :=
  fun _ => .resolves ⟨404, .ok "voice not found", .error ⟨"not a stream"⟩⟩

/-- A provider that answers 200 with the three chunks `[73, 68]`, `[]`, `[51]`. -/
def threeChunks : FetchRequest → FetchResult :=
  fun _ => .resolves ⟨200, .error ⟨"body used"⟩, .ok ⟨[[73, 68], [], [51]], none⟩⟩

/-- A provider that answers 204 with no body, so that `Readable.fromWeb` throws. -/
def noContent : FetchRequest → FetchResult :=
  fun _ => .resolves ⟨204, .ok "", .error ⟨"ERR_INVALID_ARG_TYPE"⟩⟩

/-- One request of a client at time 0, then 59 at 59 s and 60 at 61 s. -/
def burst : List (String × Nat) :=
  ("203.0.113.7", 0) :: (List.replicate 59 ("203.0.113.7", 59000) ++
    List.replicate 60 ("203.0.113.7", 61000))

/-- Fifty-nine requests of one client at time 1 s. -/
def followers : List (String × Nat) :=
  List.replicate 59 ("203.0.113.7", 1000)

/-! ## Basic facts about the embedding -/

theorem envMissing_iff (v : Option String) : envMissing v = true ↔ Absent v := by
  cases v with
  | none => simp [envMissing, Absent]
  | some s => simp [envMissing, Absent]

theorem envMissing_eq_false_iff (v : Option String) : envMissing v = false ↔ ¬ Absent v := by
  rw [← envMissing_iff]; simp

theorem trimChars_eq_nil_iff (cs : List Char) :
    trimChars cs = [] ↔ ∀ c ∈ cs, isJsWhiteSpace c = true := by
  unfold trimChars
  rw [List.reverse_eq_nil_iff, List.dropWhile_eq_nil_iff]
  constructor
  · intro h
    by_cases hd : cs.dropWhile isJsWhiteSpace = []
    · exact List.dropWhile_eq_nil_iff.mp hd
    · exfalso
      have hmem := List.head_mem hd
      have hws := h _ (List.mem_reverse.mpr hmem)
      have := List.head_dropWhile_not isJsWhiteSpace cs hd
      simp [hws] at this
  · intro h
    have : cs.dropWhile isJsWhiteSpace = [] := List.dropWhile_eq_nil_iff.mpr h
    simp [this]

theorem string_bne_empty (s : String) : (s != "") = true ↔ s.data ≠ [] := by
  rw [bne_iff_ne]
  constructor
  · intro h hd
    apply h
    cases s
    simp_all
  · intro h hs
    apply h
    rw [hs]

theorem textRejected_iff (v : JsVal) : textRejected v = true ↔ BlankText v := by
  cases v <;> try (simp [textRejected, BlankText, JsVal.truthy, JsVal.isString, trimOf]; done)
  case str s =>
    have h1 := string_bne_empty s
    have h2 := string_bne_empty (jsTrim s)
    have h3 := trimChars_eq_nil_iff s.data
    simp only [textRejected, BlankText, JsVal.truthy, JsVal.isString, trimOf, jsTrim] at *
    simp only [JsVal.str.injEq, forall_eq', Bool.not_true, Bool.or_false, Bool.or_eq_true,
      Bool.not_eq_true', ← Bool.not_eq_true, h1, h2, h3, not_not]
    constructor
    · rintro (h | h)
      · simp [h]
      · exact h
    · intro h; exact Or.inr h

theorem textRejected_eq_false_iff (v : JsVal) : textRejected v = false ↔ GoodText v := by
  rw [← Bool.not_eq_true, textRejected_iff]
  unfold BlankText GoodText
  push_neg
  simp

theorem blank_or_good (v : JsVal) : BlankText v ∨ GoodText v := by
  rw [← textRejected_iff, ← textRejected_eq_false_iff]
  cases textRejected v <;> simp

theorem getProp_bodyOrEmpty (body : JsVal) (key : String) :
    (bodyOrEmpty body).getProp key = body.getProp key := by
  unfold bodyOrEmpty
  by_cases h : body.truthy = true
  · simp [h]
  · have hf : body.truthy = false := by simpa using h
    rw [if_neg (by simp [hf])]
    cases body <;> first | rfl | (simp [JsVal.truthy] at hf)

theorem getPropDefault_bodyOrEmpty (body : JsVal) (key : String) (d : JsVal) :
    (bodyOrEmpty body).getPropDefault key d = body.getPropDefault key d := by
  unfold JsVal.getPropDefault
  rw [getProp_bodyOrEmpty]

theorem orElse_optChain (vs : JsVal) (key : String) (d : JsVal) :
    (vs.optChain key).orElse d = (supplied vs key).getD d := by
  cases vs with
  | obj fields =>
    simp only [JsVal.optChain, JsVal.isNullish, JsVal.getProp, supplied]
    cases hl : fields.lookup key with
    | none => simp [JsVal.orElse, JsVal.isNullish]
    | some x => cases x <;> simp [JsVal.orElse, JsVal.isNullish]
  | _ => simp [JsVal.optChain, JsVal.isNullish, JsVal.getProp, supplied, JsVal.orElse]

theorem jsonStringify_eq_undefined (v : JsVal) (h : jsonStringify v = .undefined) :
    v = .undefined := by
  cases v with
  | undefined => rfl
  | num n =>
    simp only [jsonStringify] at h
    split at h <;> exact JsVal.noConfusion h
  | _ => simp [jsonStringify] at h

theorem jsonFields_cons_keep (k : String) (v : JsVal) (fs : List (String × JsVal))
    (h : v ≠ .undefined) :
    jsonFields ((k, v) :: fs) = (k, jsonStringify v) :: jsonFields fs := by
  have hv : jsonStringify v ≠ .undefined := fun he => h (jsonStringify_eq_undefined v he)
  rw [jsonFields]
  split
  · rename_i heq
    exact absurd heq hv
  · rfl

theorem jsonStringify_isString (v : JsVal) : (jsonStringify v).isString = v.isString := by
  cases v with
  | num n =>
    simp only [jsonStringify]
    split <;> rfl
  | _ => simp [jsonStringify, JsVal.isString]

theorem jsonStringify_of_verbatim (v : JsVal) (h : Verbatim v) : jsonStringify v = v := by
  cases v with
  | num n =>
    obtain ⟨hf, hz⟩ := h
    simp only [jsonStringify, hf, if_true, JsNum.written]
    split
    · rename_i hzero
      have hs : n.sign = false := by
        simpa [JsNum.isNegZero, hzero] using hz
      cases n
      simp_all
    · rfl
  | null => rfl
  | bool b => rfl
  | str s => rfl
  | undefined => exact False.elim h
  | arr items => exact False.elim h
  | obj fields => exact False.elim h

theorem jsonStringify_of_not_finite (n : JsNum) (h : n.isFinite = false) :
    jsonStringify (.num n) = .null := by
  simp [jsonStringify, h]

theorem orElse_ne_undefined (v d : JsVal) (hd : d ≠ .undefined) :
    v.orElse d ≠ .undefined := by
  unfold JsVal.orElse
  split
  · exact hd
  · rename_i hn
    intro he
    rw [he] at hn
    exact hn rfl

theorem getPropDefault_ne_undefined (v : JsVal) (key : String) (d : JsVal)
    (hd : d ≠ .undefined) : v.getPropDefault key d ≠ .undefined := by
  unfold JsVal.getPropDefault
  split
  · exact hd
  · rename_i x hx
    intro he
    exact hx he

theorem jsonStringify_orElse_optChain (vs : JsVal) (key : String) (d : JsVal) :
    jsonStringify ((vs.optChain key).orElse d) =
      ((supplied vs key).map jsonStringify).getD (jsonStringify d) := by
  rw [orElse_optChain]
  cases supplied vs key <;> rfl

/-- The document of the outbound body, member by member, for a body whose `text`
is defined. -/
theorem outbound_body (env : Env) (body : JsVal) (ht : body.getProp "text" ≠ .undefined) :
    (outbound env body).body =
      .obj [("text", jsonStringify (body.getProp "text")),
            ("model_id",
              jsonStringify (body.getPropDefault "model" (.str "eleven_multilingual_v2"))),
            ("voice_settings",
              .obj [("stability",
                      ((supplied (body.getProp "voice_settings") "stability").map
                        jsonStringify).getD (.num .lit0_55)),
                    ("similarity_boost",
                      ((supplied (body.getProp "voice_settings") "similarity_boost").map
                        jsonStringify).getD (.num .lit0_85)),
                    ("style",
                      ((supplied (body.getProp "voice_settings") "style").map
                        jsonStringify).getD (.num .lit0_2)),
                    ("use_speaker_boost", .bool true)])] := by
  have hm := getPropDefault_ne_undefined body "model" (.str "eleven_multilingual_v2")
    (fun h => JsVal.noConfusion h)
  have h1 := orElse_ne_undefined ((body.getProp "voice_settings").optChain "stability")
    (.num .lit0_55) (fun h => JsVal.noConfusion h)
  have h2 := orElse_ne_undefined ((body.getProp "voice_settings").optChain "similarity_boost")
    (.num .lit0_85) (fun h => JsVal.noConfusion h)
  have h3 := orElse_ne_undefined ((body.getProp "voice_settings").optChain "style")
    (.num .lit0_2) (fun h => JsVal.noConfusion h)
  have hvs : voiceSettings (body.getProp "voice_settings") ≠ .undefined :=
    fun h => JsVal.noConfusion h
  have hb : (JsVal.bool true) ≠ .undefined := fun h => JsVal.noConfusion h
  simp only [outbound, ttsRequest]
  rw [jsonStringify, jsonFields_cons_keep _ _ _ ht, jsonFields_cons_keep _ _ _ hm,
    jsonFields_cons_keep _ _ _ hvs]
  simp only [voiceSettings]
  rw [jsonStringify, jsonFields_cons_keep _ _ _ h1, jsonFields_cons_keep _ _ _ h2,
    jsonFields_cons_keep _ _ _ h3, jsonFields_cons_keep _ _ _ hb]
  simp only [jsonStringify_orElse_optChain, jsonFields]
  rfl

theorem foldl_write_fields (chunks : List (List Nat)) (r : Res) (h : r.ended = false) :
    (chunks.foldl Res.write r).written = r.written ++ chunks.flatten ∧
    (chunks.foldl Res.write r).statusCode = r.statusCode ∧
    (chunks.foldl Res.write r).headers = r.headers ∧
    (chunks.foldl Res.write r).jsonSent = r.jsonSent := by
  induction chunks generalizing r with
  | nil => simp
  | cons c cs ih =>
    have hw : (r.write c).ended = false := by simp [Res.write, h]
    obtain ⟨h1, h2, h3, h4⟩ := ih (r.write c) hw
    simp only [List.foldl_cons, List.flatten_cons]
    refine ⟨?_, ?_, ?_, ?_⟩
    · rw [h1]; simp [Res.write, h]
    · rw [h2]; simp [Res.write, h]
    · rw [h3]; simp [Res.write, h]
    · rw [h4]; simp [Res.write, h]

/-! ## How the handler runs -/

theorem sendJson_fetches (res : Res) (fs : List FetchRequest) (code : Nat) (doc : JsVal) :
    (sendJson res fs code doc).fetches = fs := by
  unfold sendJson
  split <;> rfl

theorem sendJson_reply (res : Res) (fs : List FetchRequest) (code : Nat) (doc : JsVal)
    (h1 : res.headersSent = false) (h2 : res.jsonSent = []) (h3 : res.written = []) :
    JsonReply (sendJson res fs code doc) code doc := by
  simp [JsonReply, sendJson, Res.status, Res.json, h1, h2, h3]

theorem catchClause_of_normal (x : Exchange) (h : x.completion = .normal) :
    catchClause x = x := by
  unfold catchClause
  rw [h]

theorem catchClause_fetches (x : Exchange) : (catchClause x).fetches = x.fetches := by
  unfold catchClause
  split
  · rfl
  · exact sendJson_fetches _ _ _ _

theorem sendJson_init_normal (fs : List FetchRequest) (code : Nat) (doc : JsVal) :
    (sendJson Res.init fs code doc).completion = .normal :=
  (sendJson_reply _ _ _ _ rfl rfl rfl).2.2.2.2

theorem tryBlock_limited (env : Env) (consume : String → Bool)
    (fetch : FetchRequest → FetchResult) (req : Request) (res : Res)
    (h : consume req.ip = false) :
    tryBlock env consume fetch req res =
      sendJson res [] 429 (.obj [("error", .str "Too many requests")]) := by
  simp [tryBlock, h]

theorem tryBlock_misconfigured (env : Env) (consume : String → Bool)
    (fetch : FetchRequest → FetchResult) (req : Request) (res : Res)
    (h : consume req.ip = true)
    (hm : Absent env.ELEVEN_API_KEY ∨ Absent env.ELEVEN_VOICE_ID) :
    tryBlock env consume fetch req res =
      sendJson res [] 500
        (.obj [("error", .str "Server TTS sozlanmagan (API_KEY/VOICE_ID yo‘q).")]) := by
  have hm2 : (envMissing env.ELEVEN_API_KEY || envMissing env.ELEVEN_VOICE_ID) = true := by
    simpa [envMissing_iff] using hm
  simp only [tryBlock, h, hm2]
  simp

theorem tryBlock_blank (env : Env) (consume : String → Bool)
    (fetch : FetchRequest → FetchResult) (req : Request) (res : Res)
    (h : consume req.ip = true)
    (hk : ¬ Absent env.ELEVEN_API_KEY) (hv : ¬ Absent env.ELEVEN_VOICE_ID)
    (ht : BlankText (req.body.getProp "text")) :
    tryBlock env consume fetch req res =
      sendJson res [] 400 (.obj [("error", .str "Matn (text) talab qilinadi.")]) := by
  have hk2 := (envMissing_eq_false_iff _).mpr hk
  have hv2 := (envMissing_eq_false_iff _).mpr hv
  have ht2 := (textRejected_iff _).mpr ht
  simp only [tryBlock, h, hk2, hv2, getProp_bodyOrEmpty, ht2]
  simp

theorem tryBlock_reaches (env : Env) (consume : String → Bool)
    (fetch : FetchRequest → FetchResult) (req : Request) (res : Res)
    (h : Reaches env consume req) :
    tryBlock env consume fetch req res =
      afterFetch res (outbound env req.body) (fetch (outbound env req.body)) := by
  obtain ⟨hc, hk, hv, ht⟩ := h
  have hk2 := (envMissing_eq_false_iff _).mpr hk
  have hv2 := (envMissing_eq_false_iff _).mpr hv
  have ht2 := (textRejected_eq_false_iff _).mpr ht
  simp only [tryBlock, hc, hk2, hv2, getProp_bodyOrEmpty, getPropDefault_bodyOrEmpty, ht2, outbound]
  simp

theorem not_reaches_of_blank (env : Env) (consume : String → Bool) (req : Request)
    (ht : BlankText (req.body.getProp "text")) : ¬ Reaches env consume req := by
  rintro ⟨_, _, _, hg⟩
  rw [← textRejected_iff] at ht
  rw [← textRejected_eq_false_iff] at hg
  rw [ht] at hg
  exact Bool.noConfusion hg

theorem reaches_of_checks (env : Env) (consume : String → Bool) (req : Request)
    (h1 : consume req.ip = true) (h2 : envMissing env.ELEVEN_API_KEY = false)
    (h3 : envMissing env.ELEVEN_VOICE_ID = false)
    (h4 : textRejected (req.body.getProp "text") = false) : Reaches env consume req :=
  ⟨h1, (envMissing_eq_false_iff _).mp h2, (envMissing_eq_false_iff _).mp h3,
    (textRejected_eq_false_iff _).mp h4⟩

theorem handler_limited (env : Env) (consume : String → Bool)
    (fetch : FetchRequest → FetchResult) (req : Request) (h : consume req.ip = false) :
    handler env consume fetch req =
      sendJson Res.init [] 429 (.obj [("error", .str "Too many requests")]) := by
  unfold handler
  rw [tryBlock_limited env consume fetch req _ h]
  exact catchClause_of_normal _ (sendJson_init_normal _ _ _)

theorem handler_misconfigured (env : Env) (consume : String → Bool)
    (fetch : FetchRequest → FetchResult) (req : Request) (h : consume req.ip = true)
    (hm : Absent env.ELEVEN_API_KEY ∨ Absent env.ELEVEN_VOICE_ID) :
    handler env consume fetch req =
      sendJson Res.init [] 500
        (.obj [("error", .str "Server TTS sozlanmagan (API_KEY/VOICE_ID yo‘q).")]) := by
  unfold handler
  rw [tryBlock_misconfigured env consume fetch req _ h hm]
  exact catchClause_of_normal _ (sendJson_init_normal _ _ _)

theorem handler_blank (env : Env) (consume : String → Bool)
    (fetch : FetchRequest → FetchResult) (req : Request) (h : consume req.ip = true)
    (hk : ¬ Absent env.ELEVEN_API_KEY) (hv : ¬ Absent env.ELEVEN_VOICE_ID)
    (ht : BlankText (req.body.getProp "text")) :
    handler env consume fetch req =
      sendJson Res.init [] 400 (.obj [("error", .str "Matn (text) talab qilinadi.")]) := by
  unfold handler
  rw [tryBlock_blank env consume fetch req _ h hk hv ht]
  exact catchClause_of_normal _ (sendJson_init_normal _ _ _)

theorem handler_reaches (env : Env) (consume : String → Bool)
    (fetch : FetchRequest → FetchResult) (req : Request) (h : Reaches env consume req) :
    handler env consume fetch req =
      catchClause (afterFetch Res.init (outbound env req.body) (fetch (outbound env req.body))) := by
  unfold handler
  rw [tryBlock_reaches env consume fetch req _ h]

/-- Whatever the request, the handler either stops before the provider call with
one of its three early replies, or reaches the call. -/
theorem handler_cases (env : Env) (consume : String → Bool)
    (fetch : FetchRequest → FetchResult) (req : Request) :
    (¬ Reaches env consume req ∧ ∃ code doc,
        tryBlock env consume fetch req Res.init = sendJson Res.init [] code doc) ∨
    (Reaches env consume req ∧
        tryBlock env consume fetch req Res.init =
          afterFetch Res.init (outbound env req.body) (fetch (outbound env req.body))) := by
  by_cases hc : consume req.ip = true
  · by_cases hm : Absent env.ELEVEN_API_KEY ∨ Absent env.ELEVEN_VOICE_ID
    · left
      refine ⟨fun hr => ?_, _, _, tryBlock_misconfigured env consume fetch req _ hc hm⟩
      rcases hm with hm | hm
      · exact hr.2.1 hm
      · exact hr.2.2.1 hm
    · push_neg at hm
      rcases blank_or_good (req.body.getProp "text") with ht | ht
      · left
        exact ⟨not_reaches_of_blank env consume req ht, _, _,
          tryBlock_blank env consume fetch req _ hc hm.1 hm.2 ht⟩
      · right
        exact ⟨⟨hc, hm.1, hm.2, ht⟩, tryBlock_reaches env consume fetch req _ ⟨hc, hm.1, hm.2, ht⟩⟩
  · left
    have hc2 : consume req.ip = false := by simpa using hc
    exact ⟨fun hr => hc hr.1, _, _, tryBlock_limited env consume fetch req _ hc2⟩

theorem afterFetch_fetches (res : Res) (call : FetchRequest) (r : FetchResult) :
    (afterFetch res call r).fetches = [call] := by
  unfold afterFetch
  split
  · rfl
  · split
    · exact sendJson_fetches _ _ _ _
    · split
      · rfl
      · split
        · rfl
        · split <;> rfl

/-- When the part after `fetch` throws on a fresh response, nothing has been sent
yet: the headers are not sent, no document and no byte has been written. -/
theorem afterFetch_init_throws (call : FetchRequest) (r : FetchResult) (e : JsError)
    (h : (afterFetch Res.init call r).completion = .throws e) :
    (afterFetch Res.init call r).res.headersSent = false ∧
      (afterFetch Res.init call r).res.jsonSent = [] ∧
      (afterFetch Res.init call r).res.written = [] ∧
      (afterFetch Res.init call r).fetches = [call] := by
  cases r with
  | rejects e1 => simp [afterFetch, Res.init]
  | resolves resp =>
    by_cases hok : resp.ok = true
    · cases hw : resp.fromWeb with
      | error e2 => simp [afterFetch, hok, hw, Res.setHeader, Res.init]
      | ok st => simp [afterFetch, hok, hw, Res.setHeader, Res.init] at h
    · have hok2 : resp.ok = false := by simpa using hok
      have hn := sendJson_init_normal [call] 502
        (.obj [("error", .str "ElevenLabs error"),
               ("detail", .str (match resp.text with | .ok d => d | .error _ => ""))])
      simp only [afterFetch, hok2] at h
      simp at h
      rw [hn] at h
      exact Completion.noConfusion h

theorem reaches_fetches (env : Env) (consume : String → Bool)
    (fetch : FetchRequest → FetchResult) (req : Request) (h : Reaches env consume req) :
    (handler env consume fetch req).fetches = [outbound env req.body] := by
  rw [handler_reaches env consume fetch req h, catchClause_fetches, afterFetch_fetches]

/-- Once a request reached the provider, a rejected `fetch` makes the `try` block
throw. -/
theorem tryBlock_throws_of_rejects (env : Env) (consume : String → Bool)
    (fetch : FetchRequest → FetchResult) (req : Request) (e : JsError)
    (hr : Reaches env consume req) (hf : fetch (outbound env req.body) = .rejects e) :
    (tryBlock env consume fetch req Res.init).completion = .throws e := by
  rw [tryBlock_reaches env consume fetch req _ hr, hf]
  rfl

/-- Once a request reached the provider and the provider answered with a success
status, a throwing `Readable.fromWeb` makes the `try` block throw, after the
audio headers were set. -/
theorem tryBlock_throws_of_fromWeb (env : Env) (consume : String → Bool)
    (fetch : FetchRequest → FetchResult) (req : Request) (resp : FetchResponse) (e : JsError)
    (hr : Reaches env consume req) (hf : fetch (outbound env req.body) = .resolves resp)
    (hok : resp.ok = true) (hb : resp.fromWeb = .error e) :
    (tryBlock env consume fetch req Res.init).completion = .throws e ∧
    ("Content-Type", "audio/mpeg") ∈ (tryBlock env consume fetch req Res.init).res.headers := by
  rw [tryBlock_reaches env consume fetch req _ hr, hf]
  simp [afterFetch, hok, hb, Res.setHeader, Res.init]

/-- The handler never lets an exception escape, whatever the inputs. -/
theorem handler_never_throws (env : Env) (consume : String → Bool)
    (fetch : FetchRequest → FetchResult) (req : Request) :
    (handler env consume fetch req).completion = .normal := by
  unfold handler
  cases hx : (tryBlock env consume fetch req Res.init).completion with
  | normal => rw [catchClause_of_normal _ hx]; exact hx
  | throws e =>
    have hst : (tryBlock env consume fetch req Res.init).res.headersSent = false ∧
        (tryBlock env consume fetch req Res.init).res.jsonSent = [] ∧
        (tryBlock env consume fetch req Res.init).res.written = [] := by
      rcases handler_cases env consume fetch req with ⟨_, code, doc, ht⟩ | ⟨_, ht⟩
      · rw [ht, sendJson_init_normal] at hx
        exact Completion.noConfusion hx
      · rw [ht] at hx ⊢
        have := afterFetch_init_throws _ _ e hx
        exact ⟨this.1, this.2.1, this.2.2.1⟩
    unfold catchClause
    rw [hx]
    exact (sendJson_reply _ _ _ _ hst.1 hst.2.1 hst.2.2).2.2.2.2

/-! ## How the limiter runs -/

theorem consume_other (p : Policy) (t : Table) (k key : String) (now : Nat) (h : k ≠ key) :
    (consume p t k now).1 key = t key := by
  unfold consume
  simp only
  split
  · rfl
  · simp [Table.set, Ne.symm h]

theorem consume_rejected (p : Policy) (t : Table) (key : String) (now : Nat)
    (h : (consume p t key now).2 = false) : (consume p t key now).1 = t := by
  unfold consume at h ⊢
  simp only at h ⊢
  split
  · rfl
  · rename_i hc
    simp [hc] at h

theorem consume_admitted (p : Policy) (t : Table) (key : String) (now : Nat)
    (h : (consume p t key now).2 = true) :
    (consume p t key now).1 key = some (Counter.next p now (t key)) ∧
      (Counter.next p now (t key)).count ≤ p.points := by
  unfold consume at h ⊢
  simp only at h ⊢
  split
  · rename_i hc
    simp [hc] at h
  · rename_i hc
    exact ⟨by simp [Table.set], by omega⟩

theorem admissions_cons (p : Policy) (t : Table) (r : String × Nat) (rest : List (String × Nat)) :
    admissions p t (r :: rest) =
      (if (consume p t r.1 r.2).2 then [r] else []) ++
        admissions p (consume p t r.1 r.2).1 rest := by
  rw [admissions]
  split <;> simp

theorem admissions_subset (p : Policy) :
    ∀ (reqs : List (String × Nat)) (t : Table) (r : String × Nat),
      r ∈ admissions p t reqs → r ∈ reqs := by
  intro reqs
  induction reqs with
  | nil => intro t r h; simp [admissions] at h
  | cons q rest ih =>
    intro t r h
    rw [admissions_cons, List.mem_append] at h
    rcases h with h | h
    · split at h
      · simp at h; simp [h]
      · simp at h
    · exact List.mem_cons_of_mem _ (ih _ _ h)

theorem admissions_append (p : Policy) :
    ∀ (xs ys : List (String × Nat)) (t : Table),
      admissions p t (xs ++ ys) = admissions p t xs ++ admissions p (Table.after p t xs) ys := by
  intro xs
  induction xs with
  | nil => intro ys t; simp [admissions, Table.after]
  | cons q rest ih =>
    intro ys t
    rw [List.cons_append, admissions_cons, admissions_cons, ih, Table.after, List.append_assoc]

theorem timeOrdered_of_append (xs ys : List (String × Nat)) (h : TimeOrdered (xs ++ ys)) :
    TimeOrdered xs :=
  List.Pairwise.sublist (List.sublist_append_left xs ys) h

/-- While the counter of `key` is live, the admissions of `key` before its expiry
fill the counter up to the point budget and no further. -/
theorem live_window_bound (p : Policy) (key : String) :
    ∀ (reqs : List (String × Nat)) (t : Table) (c : Counter),
      t key = some c → TimeOrdered reqs → c.count ≤ p.points →
      (admissions p t reqs).countP (fun r => r.1 == key && decide (r.2 < c.expiresAt))
        + c.count ≤ p.points := by
  intro reqs
  induction reqs with
  | nil => intro t c _ _ hc; simpa [admissions] using hc
  | cons q rest ih =>
    intro t c ht hord hc
    have hrest : TimeOrdered rest := (List.pairwise_cons.mp hord).2
    have hlater : ∀ a ∈ rest, q.2 ≤ a.2 := (List.pairwise_cons.mp hord).1
    by_cases hk : q.1 = key
    · by_cases hlive : q.2 < c.expiresAt
      · cases hadm : (consume p t q.1 q.2).2 with
        | false =>
          rw [admissions_cons, hadm, consume_rejected p t q.1 q.2 hadm]
          simpa using ih t c ht hrest hc
        | true =>
          obtain ⟨hnew, hle⟩ := consume_admitted p t q.1 q.2 hadm
          rw [hk] at hnew hle hadm
          rw [ht] at hnew hle
          simp only [Counter.next, hlive, if_true] at hnew hle
          have := ih _ _ hnew hrest hle
          rw [admissions_cons, hk, hadm]
          simp only [if_true, List.countP_append, List.countP_cons, List.countP_nil]
          simp only [← hk, beq_self_eq_true, hlive, decide_True, Bool.and_self, if_true]
          rw [hk]
          simp only at this
          omega
      · have hzero : (admissions p t (q :: rest)).countP
            (fun r => r.1 == key && decide (r.2 < c.expiresAt)) = 0 := by
          rw [List.countP_eq_zero]
          intro a ha
          have hmem := admissions_subset p _ _ _ ha
          have hqa : q.2 ≤ a.2 := by
            rcases List.mem_cons.mp hmem with h | h
            · rw [h]
            · exact hlater a h
          have : ¬ a.2 < c.expiresAt := by omega
          simp [this]
        rw [hzero]
        omega
    · have hsame : (consume p t q.1 q.2).1 key = some c := by
        rw [consume_other p t q.1 key q.2 hk, ht]
      have := ih _ _ hsame hrest hc
      rw [admissions_cons, List.countP_append]
      have hq : (if (consume p t q.1 q.2).2 then [q] else []).countP
          (fun r => r.1 == key && decide (r.2 < c.expiresAt)) = 0 := by
        split <;> simp [hk]
      rw [hq]
      omega

theorem next_of_fresh (p : Policy) (t : Table) (key : String) (now : Nat)
    (h : Fresh t key now) : Counter.next p now (t key) = ⟨1, now + p.duration * 1000⟩ := by
  cases ht : t key with
  | none => rfl
  | some c =>
    have := h c ht
    have hn : ¬ now < c.expiresAt := by omega
    simp [Counter.next, hn]

theorem consume_of_fresh (p : Policy) (hp : 0 < p.points) (t : Table) (key : String) (now : Nat)
    (h : Fresh t key now) :
    (consume p t key now).2 = true ∧
      (consume p t key now).1 key = some ⟨1, now + p.duration * 1000⟩ := by
  have hn := next_of_fresh p t key now h
  have hadm : (consume p t key now).2 = true := by
    unfold consume
    simp only [hn]
    have : ¬ 1 > p.points := by omega
    simp [this]
  refine ⟨hadm, ?_⟩
  rw [(consume_admitted p t key now hadm).1, hn]

/-- From the request that creates or resets the counter of `key`, the admissions
of `key` in the following `duration` seconds stay within the point budget. -/
theorem window_budget (p : Policy) (hp : 0 < p.points) (t : Table) (key : String) (t0 : Nat)
    (post : List (String × Nat)) (hfresh : Fresh t key t0)
    (hord : TimeOrdered ((key, t0) :: post)) :
    admittedIn key t0 (p.duration * 1000) (admissions p t ((key, t0) :: post)) ≤ p.points := by
  obtain ⟨hadm, hnew⟩ := consume_of_fresh p hp t key t0 hfresh
  have hrest : TimeOrdered post := (List.pairwise_cons.mp hord).2
  have hlive := live_window_bound p key post _ _ hnew hrest hp
  simp only at hlive
  unfold admittedIn
  rw [admissions_cons]
  simp only [hadm, if_true, List.singleton_append, List.countP_cons]
  have hmono : (admissions p (consume p t key t0).1 post).countP
        (fun r => r.1 == key && decide (t0 ≤ r.2) && decide (r.2 < t0 + p.duration * 1000)) ≤
      (admissions p (consume p t key t0).1 post).countP
        (fun r => r.1 == key && decide (r.2 < t0 + p.duration * 1000)) := by
    apply List.countP_mono_left
    intro x _ hx
    simp only [Bool.and_eq_true, decide_eq_true_eq, beq_iff_eq] at hx ⊢
    exact ⟨hx.1.1, hx.2⟩
  split <;> omega

theorem next_count_pos (p : Policy) (now : Nat) (o : Option Counter) :
    1 ≤ (Counter.next p now o).count := by
  cases o with
  | none => simp [Counter.next]
  | some c =>
    simp only [Counter.next]
    split <;> simp

theorem consume_within (p : Policy) (t : Table) (k key : String) (now : Nat)
    (h : Within p t key) : Within p (consume p t k now).1 key := by
  by_cases hk : k = key
  · cases hadm : (consume p t k now).2 with
    | false => rw [consume_rejected p t k now hadm]; exact h
    | true =>
      obtain ⟨hnew, hle⟩ := consume_admitted p t k now hadm
      intro c hc
      rw [hk] at hnew hle
      rw [hk, hnew] at hc
      cases hc
      exact ⟨next_count_pos p now _, hle⟩
  · intro c hc
    rw [consume_other p t k key now hk] at hc
    exact h c hc

theorem load_bounds (p : Policy) (hp : 0 < p.points) (t : Table) (key : String)
    (h : Within p t key) : 1 ≤ load (t key) ∧ load (t key) ≤ p.points := by
  cases ht : t key with
  | none => exact ⟨Nat.le_refl 1, hp⟩
  | some c => exact h c ht

/-- From the start of a rolling window on, the admissions of `key` inside the
window together with the points already on its counter stay within twice the
budget. -/
theorem rolling_from_start (p : Policy) (hp : 0 < p.points) (key : String) (s : Nat) :
    ∀ (reqs : List (String × Nat)) (t : Table),
      Within p t key → TimeOrdered reqs → (∀ r ∈ reqs, s ≤ r.2) →
      admittedIn key s (p.duration * 1000) (admissions p t reqs) + load (t key)
        ≤ 2 * p.points := by
  intro reqs
  induction reqs with
  | nil =>
    intro t hin _ _
    have := (load_bounds p hp t key hin).2
    simp [admissions, admittedIn]
    omega
  | cons q rest ih =>
    intro t hin hord hs
    have hrest : TimeOrdered rest := (List.pairwise_cons.mp hord).2
    have hlater : ∀ a ∈ rest, q.2 ≤ a.2 := (List.pairwise_cons.mp hord).1
    have hs2 : ∀ r ∈ rest, s ≤ r.2 := fun r hr => hs r (List.mem_cons_of_mem _ hr)
    have hin2 := consume_within p t q.1 key q.2 hin
    by_cases hk : q.1 = key
    · by_cases hfresh : Fresh t key q.2
      · have hq : q = (key, q.2) := by rw [← hk]
        have hb := window_budget p hp t key q.2 rest hfresh (by rw [← hq]; exact hord)
        rw [← hq] at hb
        have hmono : admittedIn key s (p.duration * 1000) (admissions p t (q :: rest)) ≤
            admittedIn key q.2 (p.duration * 1000) (admissions p t (q :: rest)) := by
          unfold admittedIn
          apply List.countP_mono_left
          intro x hx hw
          have hmem := admissions_subset p _ _ _ hx
          have hqx : q.2 ≤ x.2 := by
            rcases List.mem_cons.mp hmem with h | h
            · rw [h]
            · exact hlater x h
          have hsq : s ≤ q.2 := hs q (by simp)
          simp only [Bool.and_eq_true, decide_eq_true_eq, beq_iff_eq] at hw ⊢
          exact ⟨⟨hw.1.1, hqx⟩, by omega⟩
        have := (load_bounds p hp t key hin).2
        omega
      · unfold Fresh at hfresh
        push_neg at hfresh
        obtain ⟨c, hc, hlive⟩ := hfresh
        have hcount := hin c hc
        cases hadm : (consume p t q.1 q.2).2 with
        | false =>
          have := ih t hin hrest hs2
          rw [admissions_cons, hadm, consume_rejected p t q.1 q.2 hadm]
          simpa using this
        | true =>
          obtain ⟨hnew, _⟩ := consume_admitted p t q.1 q.2 hadm
          rw [hk, hc] at hnew
          simp only [Counter.next, hlive, if_true] at hnew
          have := ih _ hin2 hrest hs2
          rw [hk] at this hadm
          rw [hnew] at this
          rw [admissions_cons, hk, hadm, hc]
          unfold admittedIn at this ⊢
          simp only [if_true, List.countP_append, load] at this ⊢
          have hone : ([q] : List (String × Nat)).countP
              (fun r => r.1 == key && decide (s ≤ r.2) &&
                decide (r.2 < s + p.duration * 1000)) ≤ 1 := by
            have := @List.countP_le_length _
              (fun (r : String × Nat) => r.1 == key && decide (s ≤ r.2) &&
                decide (r.2 < s + p.duration * 1000)) [q]
            simpa using this
          omega
    · have hsame : (consume p t q.1 q.2).1 key = t key := consume_other p t q.1 key q.2 hk
      have := ih _ hin2 hrest hs2
      rw [hsame] at this
      rw [admissions_cons]
      unfold admittedIn at this ⊢
      rw [List.countP_append]
      have hq : (if (consume p t q.1 q.2).2 then [q] else []).countP
          (fun r => r.1 == key && decide (s ≤ r.2) &&
            decide (r.2 < s + p.duration * 1000)) = 0 := by
        split <;> simp [hk]
      rw [hq]
      omega

/-- In any rolling window of `duration` seconds, the admissions of `key` number at
most twice the point budget minus one. -/
theorem rolling_window_bound (p : Policy) (hp : 0 < p.points) (key : String) (s : Nat) :
    ∀ (reqs : List (String × Nat)) (t : Table),
      Within p t key → TimeOrdered reqs →
      admittedIn key s (p.duration * 1000) (admissions p t reqs) + 1 ≤ 2 * p.points := by
  intro reqs
  induction reqs with
  | nil =>
    intro t _ _
    simp [admissions, admittedIn]
    omega
  | cons q rest ih =>
    intro t hin hord
    have hrest : TimeOrdered rest := (List.pairwise_cons.mp hord).2
    have hlater : ∀ a ∈ rest, q.2 ≤ a.2 := (List.pairwise_cons.mp hord).1
    by_cases hs : s ≤ q.2
    · have hall : ∀ r ∈ q :: rest, s ≤ r.2 := by
        intro r hr
        rcases List.mem_cons.mp hr with h | h
        · rw [h]; exact hs
        · exact Nat.le_trans hs (hlater r h)
      have := rolling_from_start p hp key s (q :: rest) t hin hord hall
      have := (load_bounds p hp t key hin).1
      omega
    · have := ih _ (consume_within p t q.1 key q.2 hin) hrest
      rw [admissions_cons]
      unfold admittedIn at this ⊢
      rw [List.countP_append]
      have hq : (if (consume p t q.1 q.2).2 then [q] else []).countP
          (fun r => r.1 == key && decide (s ≤ r.2) &&
            decide (r.2 < s + p.duration * 1000)) = 0 := by
        split <;> simp [hs]
      rw [hq]
      omega

/-- For the limiter of the server, started empty, any rolling window of 60 seconds
holds at most 119 admissions of one key. -/
theorem tts_rolling_window (key : String) (s : Nat) (reqs : List (String × Nat))
    (hord : TimeOrdered reqs) :
    admittedIn key s 60000 (admissions ttsLimiter Table.empty reqs) ≤ 119 := by
  have := rolling_window_bound ttsLimiter (by decide) key s reqs Table.empty
    (fun c hc => by simp [Table.empty] at hc) hord
  have h60 : ttsLimiter.duration * 1000 = 60000 := rfl
  have hp : ttsLimiter.points = 60 := rfl
  rw [h60, hp] at this
  omega

/-! ## The claims -/

/-- C1, as stated, fails: after one request at time 0, 59 requests at 59 s and 60
requests at 61 s of the same client are all admitted, so the rolling 60-second
window that starts at 59 s holds 119 admissions, more than 60. -/
theorem C1_counterexample :
    TimeOrdered burst ∧
    admittedIn "203.0.113.7" 59000 60000 (admissions ttsLimiter Table.empty burst) = 119 ∧
    ¬ admittedIn "203.0.113.7" 59000 60000 (admissions ttsLimiter Table.empty burst) ≤ 60 := by
  refine ⟨by decide, by decide, by decide⟩

/-- C1 (amended): for every client key and every time-ordered sequence of
requests, the limiter with points=60 and duration=60 admits at most 60 requests
of the key in the 60 seconds that start at a request which creates or resets the
key's counter; once 60 are admitted, a further request of the key inside those 60
seconds is rejected and the handler answers 429; and a rolling 60-second window,
whatever its start, holds at most 119 admissions of the key. -/
theorem C1_fixed_window (t : Table) (key : String) (t0 : Nat) (post : List (String × Nat))
    (hfresh : Fresh t key t0) (hord : TimeOrdered ((key, t0) :: post)) :
    admittedIn key t0 60000 (admissions ttsLimiter t ((key, t0) :: post)) ≤ 60 ∧
    (∀ (a b : List (String × Nat)) (now : Nat),
      post = a ++ (key, now) :: b → now < t0 + 60000 →
      admittedIn key t0 60000 (admissions ttsLimiter t ((key, t0) :: a)) = 60 →
      ∀ (env : Env) (fetch : FetchRequest → FetchResult) (body : JsVal),
        JsonReply (serve env fetch (Table.after ttsLimiter t ((key, t0) :: a)) now ⟨key, body⟩).2
          429 (.obj [("error", .str "Too many requests")])) ∧
    (∀ (s : Nat) (reqs : List (String × Nat)), TimeOrdered reqs →
      admittedIn key s 60000 (admissions ttsLimiter Table.empty reqs) ≤ 119) := by
  refine ⟨window_budget ttsLimiter (by decide) t key t0 post hfresh hord, ?_,
    fun s reqs h => tts_rolling_window key s reqs h⟩
  intro a b now hpost hnow hfull env fetch body
  have hrej : (consume ttsLimiter (Table.after ttsLimiter t ((key, t0) :: a)) key now).2 = false := by
    cases hadm : (consume ttsLimiter (Table.after ttsLimiter t ((key, t0) :: a)) key now).2 with
    | false => rfl
    | true =>
      exfalso
      have hord2 : TimeOrdered ((key, t0) :: (a ++ [(key, now)])) := by
        have : (key, t0) :: post = ((key, t0) :: (a ++ [(key, now)])) ++ b := by
          rw [hpost]; simp
        rw [this] at hord
        exact timeOrdered_of_append _ _ hord
      have hle : t0 ≤ now := by
        have := (List.pairwise_cons.mp hord2).1 (key, now) (by simp)
        exact this
      have hb := window_budget ttsLimiter (by decide) t key t0 (a ++ [(key, now)]) hfresh hord2
      have happ : admissions ttsLimiter t ((key, t0) :: (a ++ [(key, now)])) =
          admissions ttsLimiter t ((key, t0) :: a) ++ [(key, now)] := by
        rw [← List.cons_append, admissions_append, admissions_cons]
        simp [hadm, admissions]
      rw [happ] at hb
      unfold admittedIn at hb hfull
      rw [List.countP_append] at hb
      have hone : ([(key, now)] : List (String × Nat)).countP
          (fun r => r.1 == key && decide (t0 ≤ r.2) &&
            decide (r.2 < t0 + ttsLimiter.duration * 1000)) = 1 := by
        have : now < t0 + ttsLimiter.duration * 1000 := hnow
        simp [hle, this]
      have h60 : ttsLimiter.duration * 1000 = 60000 := rfl
      have hp : ttsLimiter.points = 60 := rfl
      rw [hone, h60, hp, hfull] at hb
      omega
  unfold serve
  simp only
  rw [handler_limited _ _ _ _ hrej]
  exact sendJson_reply _ _ _ _ rfl rfl rfl

/-- C1 (amended) at a client that sends one request at time 0 and 60 more one
second later: at most 60 are admitted in the first 60 seconds, and the last one
is answered 429. -/
theorem C1_fixed_window_witness :
    Fresh Table.empty "203.0.113.7" 0 ∧
    TimeOrdered (("203.0.113.7", 0) :: (followers ++ [("203.0.113.7", 1000)])) ∧
    admittedIn "203.0.113.7" 0 60000
      (admissions ttsLimiter Table.empty
        (("203.0.113.7", 0) :: (followers ++ [("203.0.113.7", 1000)]))) ≤ 60 ∧
    JsonReply
      (serve configured threeChunks
        (Table.after ttsLimiter Table.empty (("203.0.113.7", 0) :: followers)) 1000
        ⟨"203.0.113.7", stabilityBody⟩).2
      429 (.obj [("error", .str "Too many requests")]) :=
  ⟨(fun _ h => by cases h), by decide,
   (C1_fixed_window Table.empty "203.0.113.7" 0 (followers ++ [("203.0.113.7", 1000)])
      (fun _ h => by cases h) (by decide)).1,
   (C1_fixed_window Table.empty "203.0.113.7" 0 (followers ++ [("203.0.113.7", 1000)])
      (fun _ h => by cases h) (by decide)).2.1 followers [] 1000 rfl (by decide) (by decide)
      configured threeChunks stabilityBody⟩

/-- C2, as stated, fails: with both credentials unset and the limiter rejecting,
the outcome is status 429 and not the status 500 of `ServerMisconfigured`. -/
theorem C2_counterexample :
    (Absent (Env.mk none none).ELEVEN_API_KEY ∨ Absent (Env.mk none none).ELEVEN_VOICE_ID) ∧
    (handler ⟨none, none⟩ rejectAll offline ⟨"203.0.113.7", stabilityBody⟩).res.statusCode
      = 429 ∧
    (handler ⟨none, none⟩ rejectAll offline ⟨"203.0.113.7", stabilityBody⟩).res.statusCode
      ≠ 500 :=
  ⟨Or.inl (Or.inl rfl), by decide, by decide⟩

/-- C2 (amended): when `ELEVEN_API_KEY` or `ELEVEN_VOICE_ID` is absent (unset or
the empty string), no outbound provider call is made for any request, and every
request the limiter admits, whatever its body, gets exactly the reply: status 500
with JSON `{error: "Server TTS sozlanmagan (API_KEY/VOICE_ID yo‘q)."}`. -/
theorem C2_server_misconfigured (env : Env) (consume : String → Bool)
    (fetch : FetchRequest → FetchResult) (req : Request)
    (h : Absent env.ELEVEN_API_KEY ∨ Absent env.ELEVEN_VOICE_ID) :
    (handler env consume fetch req).fetches = [] ∧
    (consume req.ip = true →
      JsonReply (handler env consume fetch req) 500
        (.obj [("error", .str "Server TTS sozlanmagan (API_KEY/VOICE_ID yo‘q).")])) := by
  constructor
  · cases hc : consume req.ip with
    | true => rw [handler_misconfigured env consume fetch req hc h]; exact sendJson_fetches _ _ _ _
    | false => rw [handler_limited env consume fetch req hc]; exact sendJson_fetches _ _ _ _
  · intro hc
    rw [handler_misconfigured env consume fetch req hc h]
    exact sendJson_reply _ _ _ _ rfl rfl rfl

/-- C2 (amended) at a server whose key is the empty string, with the limiter
admitting and a valid body. -/
theorem C2_server_misconfigured_witness :
    (Absent (Env.mk (some "") (some "voice42")).ELEVEN_API_KEY ∨
      Absent (Env.mk (some "") (some "voice42")).ELEVEN_VOICE_ID) ∧
    (handler ⟨some "", some "voice42"⟩ allowAll threeChunks
        ⟨"203.0.113.7", stabilityBody⟩).fetches = [] ∧
    JsonReply (handler ⟨some "", some "voice42"⟩ allowAll threeChunks
        ⟨"203.0.113.7", stabilityBody⟩) 500
      (.obj [("error", .str "Server TTS sozlanmagan (API_KEY/VOICE_ID yo‘q).")]) :=
  ⟨Or.inl (Or.inr rfl),
   (C2_server_misconfigured ⟨some "", some "voice42"⟩ allowAll threeChunks
      ⟨"203.0.113.7", stabilityBody⟩ (Or.inl (Or.inr rfl))).1,
   (C2_server_misconfigured ⟨some "", some "voice42"⟩ allowAll threeChunks
      ⟨"203.0.113.7", stabilityBody⟩ (Or.inl (Or.inr rfl))).2 rfl⟩

/-- C3, as stated, fails: an admitted request without `text` on a server whose
credentials are unset gets status 500, not the status 400 of `InvalidInput`. -/
theorem C3_counterexample :
    BlankText ((JsVal.obj []).getProp "text") ∧
    (handler ⟨none, none⟩ allowAll offline ⟨"203.0.113.7", .obj []⟩).res.statusCode = 500 ∧
    (handler ⟨none, none⟩ allowAll offline ⟨"203.0.113.7", .obj []⟩).res.statusCode ≠ 400 :=
  ⟨fun _ h => JsVal.noConfusion h, by decide, by decide⟩

/-- C3 (amended): for a request whose `text` is absent, not a string, empty or
white space only, no outbound provider call is made, and when the limiter admits
the request and both credentials are configured the reply is exactly status 400
with JSON `{error: "Matn (text) talab qilinadi."}`. -/
theorem C3_invalid_input (env : Env) (consume : String → Bool)
    (fetch : FetchRequest → FetchResult) (req : Request)
    (h : BlankText (req.body.getProp "text")) :
    (handler env consume fetch req).fetches = [] ∧
    (consume req.ip = true → ¬ Absent env.ELEVEN_API_KEY → ¬ Absent env.ELEVEN_VOICE_ID →
      JsonReply (handler env consume fetch req) 400
        (.obj [("error", .str "Matn (text) talab qilinadi.")])) := by
  constructor
  · rcases handler_cases env consume fetch req with ⟨_, code, doc, ht⟩ | ⟨hr, _⟩
    · unfold handler
      rw [catchClause_fetches, ht]
      exact sendJson_fetches _ _ _ _
    · exact absurd hr (not_reaches_of_blank env consume req h)
  · intro hc hk hv
    rw [handler_blank env consume fetch req hc hk hv h]
    exact sendJson_reply _ _ _ _ rfl rfl rfl

/-- C3 (amended) at a request whose `text` is a tab, a no-break space, a space and
a line feed, on a configured server with the limiter admitting. -/
theorem C3_invalid_input_witness :
    BlankText (blankBody.getProp "text") ∧
    (handler configured allowAll threeChunks ⟨"203.0.113.7", blankBody⟩).fetches = [] ∧
    JsonReply (handler configured allowAll threeChunks ⟨"203.0.113.7", blankBody⟩) 400
      (.obj [("error", .str "Matn (text) talab qilinadi.")]) :=
  ⟨(textRejected_iff _).mp (by decide),
   (C3_invalid_input configured allowAll threeChunks ⟨"203.0.113.7", blankBody⟩
      ((textRejected_iff _).mp (by decide))).1,
   (C3_invalid_input configured allowAll threeChunks ⟨"203.0.113.7", blankBody⟩
      ((textRejected_iff _).mp (by decide))).2 rfl
      ((envMissing_eq_false_iff _).mp rfl) ((envMissing_eq_false_iff _).mp rfl)⟩

/-- C4: when `ttsLimiter.consume(req.ip)` fails, the reply is exactly status 429
with JSON `{"error": "Too many requests"}`, no outbound call is made, and the
whole exchange is the same for every environment, provider and request body. -/
theorem C4_rate_limited (env : Env) (consume : String → Bool)
    (fetch : FetchRequest → FetchResult) (req : Request) (h : consume req.ip = false) :
    JsonReply (handler env consume fetch req) 429 (.obj [("error", .str "Too many requests")]) ∧
    (handler env consume fetch req).fetches = [] ∧
    ∀ (env2 : Env) (fetch2 : FetchRequest → FetchResult) (body2 : JsVal),
      handler env2 consume fetch2 ⟨req.ip, body2⟩ = handler env consume fetch req := by
  refine ⟨?_, ?_, ?_⟩
  · rw [handler_limited env consume fetch req h]
    exact sendJson_reply _ _ _ _ rfl rfl rfl
  · rw [handler_limited env consume fetch req h]
    exact sendJson_fetches _ _ _ _
  · intro env2 fetch2 body2
    rw [handler_limited env consume fetch req h,
      handler_limited env2 consume fetch2 ⟨req.ip, body2⟩ h]

/-- C4 at a configured server and a valid body, with the limiter rejecting. -/
theorem C4_rate_limited_witness :
    rejectAll (Request.mk "203.0.113.7" stabilityBody).ip = false ∧
    JsonReply (handler configured rejectAll threeChunks ⟨"203.0.113.7", stabilityBody⟩)
      429 (.obj [("error", .str "Too many requests")]) ∧
    (handler configured rejectAll threeChunks ⟨"203.0.113.7", stabilityBody⟩).fetches = [] :=
  ⟨rfl,
   (C4_rate_limited configured rejectAll threeChunks ⟨"203.0.113.7", stabilityBody⟩ rfl).1,
   (C4_rate_limited configured rejectAll threeChunks ⟨"203.0.113.7", stabilityBody⟩ rfl).2.1⟩

/-- C5: when the provider answers a request that reached it with a non-success
status, the reply is status 502 with JSON `{error: "ElevenLabs error", detail: d}`
where `d` is the provider's body text, and with `detail` the empty string when
reading that body fails; in both cases the handler settles without throwing. -/
theorem C5_upstream_error (env : Env) (consume : String → Bool)
    (fetch : FetchRequest → FetchResult) (req : Request) (resp : FetchResponse)
    (hr : Reaches env consume req)
    (hf : fetch (outbound env req.body) = .resolves resp)
    (hs : resp.status < 200 ∨ 299 < resp.status) :
    (∀ d, resp.text = .ok d →
      JsonReply (handler env consume fetch req) 502
        (.obj [("error", .str "ElevenLabs error"), ("detail", .str d)])) ∧
    (∀ e, resp.text = .error e →
      JsonReply (handler env consume fetch req) 502
        (.obj [("error", .str "ElevenLabs error"), ("detail", .str "")])) := by
  have hok : resp.ok = false := by
    simp only [FetchResponse.ok, Bool.and_eq_false_iff, decide_eq_false_iff_not]
    omega
  have key : ∀ detail, (match resp.text with | .ok d => d | .error _ => "") = detail →
      JsonReply (handler env consume fetch req) 502
        (.obj [("error", .str "ElevenLabs error"), ("detail", .str detail)]) := by
    intro detail hd
    have hrep := sendJson_reply Res.init [outbound env req.body] 502
      (.obj [("error", .str "ElevenLabs error"), ("detail", .str detail)]) rfl rfl rfl
    rw [handler_reaches env consume fetch req hr, hf]
    simp only [afterFetch, hok, Bool.not_false, if_true, hd]
    rw [catchClause_of_normal _ hrep.2.2.2.2]
    exact hrep
  constructor
  · intro d hd
    exact key d (by rw [hd])
  · intro e he
    exact key "" (by rw [he])

/-- C5 at the provider that answers 404 `voice not found`. -/
theorem C5_upstream_error_witness :
    Reaches configured allowAll ⟨"203.0.113.7", stabilityBody⟩ ∧
    JsonReply (handler configured allowAll voiceNotFound ⟨"203.0.113.7", stabilityBody⟩) 502
      (.obj [("error", .str "ElevenLabs error"), ("detail", .str "voice not found")]) :=
  ⟨reaches_of_checks _ _ _ rfl rfl rfl (by decide),
   (C5_upstream_error configured allowAll voiceNotFound ⟨"203.0.113.7", stabilityBody⟩
      ⟨404, .ok "voice not found", .error ⟨"not a stream"⟩⟩
      (reaches_of_checks _ _ _ rfl rfl rfl (by decide)) rfl (Or.inr (by decide))).1
      "voice not found" rfl⟩

/-- C6, as stated, fails: for `voice_settings: {stability: 1e999}` the caller
supplied a stability that is neither `undefined` nor `null` (`Infinity` after
`JSON.parse`), and the outbound body carries `stability: null`, which is neither
the caller's value nor the default. -/
theorem C6_counterexample :
    supplied (infiniteStabilityBody.getProp "voice_settings") "stability"
      = some (.num .infinity) ∧
    (handler configured allowAll threeChunks
        ⟨"203.0.113.7", infiniteStabilityBody⟩).fetches.map
      (fun call => (call.body.getProp "voice_settings").getProp "stability") = [.null] ∧
    (handler configured allowAll threeChunks
        ⟨"203.0.113.7", infiniteStabilityBody⟩).fetches.map
      (fun call => (call.body.getProp "voice_settings").getProp "stability")
        ≠ [.num .infinity] :=
  ⟨rfl, rfl, fun h => by cases h⟩

/-- C6 (amended): in the outbound call of a request that reached the provider,
each of `stability`, `similarity_boost`, `style` is the caller's value as
`JSON.stringify` writes it when the caller supplied one (anything but `undefined`
and `null`) and otherwise 0.55, 0.85, 0.2; `use_speaker_boost` is `true`; and
`voice_settings` has no other key. What `JSON.stringify` writes is the value
itself for `null`, a boolean, a string and a finite number other than `-0`, and
`null` for a number that is not finite. -/
theorem C6_voice_settings (env : Env) (consume : String → Bool)
    (fetch : FetchRequest → FetchResult) (req : Request)
    (hr : Reaches env consume req) :
    (∃ call, (handler env consume fetch req).fetches = [call] ∧
      call.body.getProp "voice_settings" =
        .obj [("stability",
                ((supplied (req.body.getProp "voice_settings") "stability").map
                  jsonStringify).getD (.num .lit0_55)),
              ("similarity_boost",
                ((supplied (req.body.getProp "voice_settings") "similarity_boost").map
                  jsonStringify).getD (.num .lit0_85)),
              ("style",
                ((supplied (req.body.getProp "voice_settings") "style").map
                  jsonStringify).getD (.num .lit0_2)),
              ("use_speaker_boost", .bool true)]) ∧
    (∀ v, Verbatim v → jsonStringify v = v) ∧
    (∀ n : JsNum, n.isFinite = false → jsonStringify (.num n) = .null) := by
  refine ⟨⟨outbound env req.body, reaches_fetches env consume fetch req hr, ?_⟩,
    jsonStringify_of_verbatim, jsonStringify_of_not_finite⟩
  obtain ⟨s, hs, _⟩ := hr.2.2.2
  rw [outbound_body env req.body (by rw [hs]; exact fun h => JsVal.noConfusion h)]
  rfl

/-- C6 (amended) at `voice_settings: {stability: 0.9}`: the outbound settings are
`{stability: 0.9, similarity_boost: 0.85, style: 0.2, use_speaker_boost: true}`. -/
theorem C6_voice_settings_witness :
    Reaches configured allowAll ⟨"203.0.113.7", stabilityBody⟩ ∧
    ∃ call, (handler configured allowAll threeChunks ⟨"203.0.113.7", stabilityBody⟩).fetches
        = [call] ∧
      call.body.getProp "voice_settings" =
        .obj [("stability", .num .lit0_9), ("similarity_boost", .num .lit0_85),
              ("style", .num .lit0_2), ("use_speaker_boost", .bool true)] :=
  ⟨reaches_of_checks _ _ _ rfl rfl rfl (by decide),
   (C6_voice_settings configured allowAll threeChunks ⟨"203.0.113.7", stabilityBody⟩
     (reaches_of_checks _ _ _ rfl rfl rfl (by decide))).1⟩

/-- C7: when the provider answers a request that reached it with a success status
and a body that arrives as chunks and ends without error, the bytes written to the
client are the concatenation of the chunks in arrival order, the status is 200,
the headers include `Content-Type: audio/mpeg` and `Cache-Control: no-store`, no
JSON document is sent, and the response is ended. -/
theorem C7_stream_relay (env : Env) (consume : String → Bool)
    (fetch : FetchRequest → FetchResult) (req : Request) (resp : FetchResponse)
    (chunks : List (List Nat))
    (hr : Reaches env consume req)
    (hf : fetch (outbound env req.body) = .resolves resp)
    (hs : 200 ≤ resp.status ∧ resp.status ≤ 299)
    (hb : resp.fromWeb = .ok ⟨chunks, none⟩) :
    (handler env consume fetch req).res.written = chunks.flatten ∧
    (handler env consume fetch req).res.statusCode = 200 ∧
    ("Content-Type", "audio/mpeg") ∈ (handler env consume fetch req).res.headers ∧
    ("Cache-Control", "no-store") ∈ (handler env consume fetch req).res.headers ∧
    (handler env consume fetch req).res.jsonSent = [] ∧
    (handler env consume fetch req).res.ended = true ∧
    (handler env consume fetch req).completion = .normal := by
  have hok : resp.ok = true := by
    simp [FetchResponse.ok, hs.1, hs.2]
  have hrun : handler env consume fetch req =
      ⟨Res.pipeFrom
        ⟨200, [("Cache-Control", "no-store"), ("Content-Type", "audio/mpeg")], [], [], false, false⟩
        ⟨chunks, none⟩, [outbound env req.body], .normal⟩ := by
    rw [handler_reaches env consume fetch req hr, hf]
    simp [afterFetch, hok, hb, Res.setHeader, Res.init, catchClause]
  obtain ⟨h1, h2, h3, h4⟩ := foldl_write_fields chunks
    ⟨200, [("Cache-Control", "no-store"), ("Content-Type", "audio/mpeg")], [], [], false, false⟩ rfl
  rw [hrun]
  simp only [Res.pipeFrom, Res.endResponse, h1, h2, h3, h4]
  simp

/-- C7 at the provider that streams three chunks: the client receives the bytes
`73, 68, 51`. -/
theorem C7_stream_relay_witness :
    Reaches configured allowAll ⟨"203.0.113.7", stabilityBody⟩ ∧
    (handler configured allowAll threeChunks ⟨"203.0.113.7", stabilityBody⟩).res.written
      = [73, 68, 51] ∧
    (handler configured allowAll threeChunks ⟨"203.0.113.7", stabilityBody⟩).res.statusCode
      = 200 :=
  ⟨reaches_of_checks _ _ _ rfl rfl rfl (by decide),
   (C7_stream_relay configured allowAll threeChunks ⟨"203.0.113.7", stabilityBody⟩
      ⟨200, .error ⟨"body used"⟩, .ok ⟨[[73, 68], [], [51]], none⟩⟩ [[73, 68], [], [51]]
      (reaches_of_checks _ _ _ rfl rfl rfl (by decide)) rfl (by decide) rfl).1,
   (C7_stream_relay configured allowAll threeChunks ⟨"203.0.113.7", stabilityBody⟩
      ⟨200, .error ⟨"body used"⟩, .ok ⟨[[73, 68], [], [51]], none⟩⟩ [[73, 68], [], [51]]
      (reaches_of_checks _ _ _ rfl rfl rfl (by decide)) rfl (by decide) rfl).2.1⟩

/-- C8: an outbound provider call is made exactly when the limiter admits the
request, both credentials are non-empty and `text` is a string with a character
that is not white space; at most one call is made; and the `text` of the call is
the caller's string, unchanged and not empty. -/
theorem C8_single_call (env : Env) (consume : String → Bool)
    (fetch : FetchRequest → FetchResult) (req : Request) :
    ((handler env consume fetch req).fetches ≠ [] ↔ Reaches env consume req) ∧
    (handler env consume fetch req).fetches.length ≤ 1 ∧
    ∀ call ∈ (handler env consume fetch req).fetches,
      ∃ s, req.body.getProp "text" = .str s ∧ call.body.getProp "text" = .str s ∧ s ≠ "" := by
  rcases handler_cases env consume fetch req with ⟨hn, code, doc, ht⟩ | ⟨hr, _⟩
  · have hf : (handler env consume fetch req).fetches = [] := by
      unfold handler
      rw [catchClause_fetches, ht]
      exact sendJson_fetches _ _ _ _
    rw [hf]
    simp [hn]
  · rw [reaches_fetches env consume fetch req hr]
    refine ⟨by simp [hr], by simp, ?_⟩
    intro call hc
    rw [List.mem_singleton] at hc
    obtain ⟨s, hs, c, hcs, _⟩ := hr.2.2.2
    refine ⟨s, hs, ?_, ?_⟩
    · rw [hc, outbound_body env req.body (by rw [hs]; exact fun h => JsVal.noConfusion h), hs]
      rfl
    · intro he
      rw [he] at hcs
      simp at hcs

/-- C9, as stated, fails: for the body `{text: "salom", model: 5}` the outbound
`model_id` is the number 5, not a string. -/
theorem C9_counterexample :
    (handler configured allowAll threeChunks ⟨"203.0.113.7", numericModelBody⟩).fetches.map
        (fun call => call.body.getProp "model_id") = [.num .lit5] ∧
    (handler configured allowAll threeChunks ⟨"203.0.113.7", numericModelBody⟩).fetches.map
        (fun call => (call.body.getProp "model_id").isString) = [false] :=
  ⟨rfl, by decide⟩

/-- C9 (amended): in the outbound call of a request that reached the provider,
`model_id` is `"eleven_multilingual_v2"` when the body has no `model`, and is the
caller's `model` as `JSON.stringify` writes it otherwise: the value itself when it
is a string, `null`, a boolean or a finite number other than `-0`, and `null` when
it is a number that is not finite. So `model_id` is a string exactly when the
caller's `model` is absent or a string. -/
theorem C9_model_id (env : Env) (consume : String → Bool)
    (fetch : FetchRequest → FetchResult) (req : Request)
    (hr : Reaches env consume req) :
    ∃ call, (handler env consume fetch req).fetches = [call] ∧
      (req.body.getProp "model" = .undefined →
        call.body.getProp "model_id" = .str "eleven_multilingual_v2") ∧
      (req.body.getProp "model" ≠ .undefined →
        call.body.getProp "model_id" = jsonStringify (req.body.getProp "model")) ∧
      (Verbatim (req.body.getProp "model") →
        call.body.getProp "model_id" = req.body.getProp "model") ∧
      (∀ n : JsNum, req.body.getProp "model" = .num n → n.isFinite = false →
        call.body.getProp "model_id" = .null) ∧
      ((call.body.getProp "model_id").isString = true ↔
        (req.body.getProp "model" = .undefined ∨
          (req.body.getProp "model").isString = true)) := by
  refine ⟨outbound env req.body, reaches_fetches env consume fetch req hr, ?_⟩
  obtain ⟨s, hs, _⟩ := hr.2.2.2
  have hm : (outbound env req.body).body.getProp "model_id" =
      jsonStringify (req.body.getPropDefault "model" (.str "eleven_multilingual_v2")) := by
    rw [outbound_body env req.body (by rw [hs]; exact fun h => JsVal.noConfusion h)]
    rfl
  rw [hm]
  have hdef : ∀ m : JsVal, m ≠ .undefined →
      (match m with
        | .undefined => JsVal.str "eleven_multilingual_v2"
        | x => x) = m := by
    intro m hne
    cases m <;> first | rfl | exact absurd rfl hne
  unfold JsVal.getPropDefault
  refine ⟨?_, ?_, ?_, ?_, ?_⟩
  · intro h
    rw [h]
    rfl
  · intro h
    rw [hdef _ h]
  · intro h
    have hne : req.body.getProp "model" ≠ .undefined := by
      intro he
      rw [he] at h
      exact h
    rw [hdef _ hne]
    exact jsonStringify_of_verbatim _ h
  · intro n hn hf
    rw [hn]
    exact jsonStringify_of_not_finite n hf
  · rw [jsonStringify_isString]
    cases req.body.getProp "model" <;> simp [JsVal.isString]

/-- C9 (amended) at the body `{text: "salom", voice_settings: {stability: 0.9}}`,
which has no `model`. -/
theorem C9_model_id_witness :
    Reaches configured allowAll ⟨"203.0.113.7", stabilityBody⟩ ∧
    ∃ call, (handler configured allowAll threeChunks ⟨"203.0.113.7", stabilityBody⟩).fetches
        = [call] ∧
      call.body.getProp "model_id" = .str "eleven_multilingual_v2" :=
  ⟨reaches_of_checks _ _ _ rfl rfl rfl (by decide),
   (C9_model_id configured allowAll threeChunks ⟨"203.0.113.7", stabilityBody⟩
     (reaches_of_checks _ _ _ rfl rfl rfl (by decide))).imp
     (fun _ h => ⟨h.1, h.2.1 rfl⟩)⟩

/-- C10: when a step of the `try` block throws, the handler catches it: the reply
is status 500 with JSON `{error: "Server ichki xatosi"}`, exactly one document
and no raw byte is sent, the response is ended, and the handler settles without
throwing. -/
theorem C10_internal_error (env : Env) (consume : String → Bool)
    (fetch : FetchRequest → FetchResult) (req : Request) (e : JsError)
    (h : (tryBlock env consume fetch req Res.init).completion = .throws e) :
    JsonReply (handler env consume fetch req) 500
      (.obj [("error", .str "Server ichki xatosi")]) := by
  have hst : (tryBlock env consume fetch req Res.init).res.headersSent = false ∧
      (tryBlock env consume fetch req Res.init).res.jsonSent = [] ∧
      (tryBlock env consume fetch req Res.init).res.written = [] := by
    rcases handler_cases env consume fetch req with ⟨_, code, doc, ht⟩ | ⟨_, ht⟩
    · rw [ht, sendJson_init_normal] at h
      exact Completion.noConfusion h
    · rw [ht] at h ⊢
      have := afterFetch_init_throws _ _ e h
      exact ⟨this.1, this.2.1, this.2.2.1⟩
  unfold handler catchClause
  rw [h]
  exact sendJson_reply _ _ _ _ hst.1 hst.2.1 hst.2.2

/-- C10 at the provider that answers 204 without a body: `Readable.fromWeb`
throws after the audio headers were set, and the reply is the JSON error 500. -/
theorem C10_internal_error_witness :
    (tryBlock configured allowAll noContent ⟨"203.0.113.7", stabilityBody⟩ Res.init).completion
      = .throws ⟨"ERR_INVALID_ARG_TYPE"⟩ ∧
    JsonReply (handler configured allowAll noContent ⟨"203.0.113.7", stabilityBody⟩) 500
      (.obj [("error", .str "Server ichki xatosi")]) :=
  ⟨rfl, C10_internal_error configured allowAll noContent ⟨"203.0.113.7", stabilityBody⟩
    ⟨"ERR_INVALID_ARG_TYPE"⟩ rfl⟩

end TtsProxy
